import Mathlib

/-!
# Verification of the Yummy-Yt-Dlp job scheduler against its specification

Shallow embedding of the Rust sources under `src-tauri/src/` (commands.rs,
binary.rs, tray.rs) together with spec-modelled definitions for the
`DownloadManager` admission gate whose implementation file
(`src-tauri/src/ytdlp/download.rs`) is not part of the provided sources.
-/

namespace YummyYtDlp

/-! ## Data model -/

/-- Job status enumeration (`DownloadStatus` in `ytdlp/types.rs`), as used by
`commands.rs`: `Pending → Downloading → {Completed, Failed, Cancelled}`. -/
inductive DownloadStatus
  | Pending
  | Downloading
  | Completed
  | Failed
  | Cancelled
  deriving DecidableEq, Repr

/-- Application error type (`AppError` in `modules/types.rs`).  The variants
below are the ones constructed in the provided sources (`Custom`,
`BinaryNotFound`, `NetworkError`, `DownloadError`, `DatabaseError`) plus the
spec's `ConfigError` (§7 taxonomy) used by the spec-modelled
`set_max_concurrent`. -/
inductive AppError
  | Custom (msg : String)
  | BinaryNotFound (msg : String)
  | NetworkError (msg : String)
  | DownloadError (msg : String)
  | DatabaseError (msg : String)
  | ConfigError (msg : String)
  deriving DecidableEq, Repr

/-- The job store: the download-queue table keyed by job id, each row holding
the job's current status.  Rows are listed in insertion order; ids are unique. -/
abbrev Store := List (Nat × DownloadStatus)

/-- `DbState::get_download(task_id)`: read a row by id, `none` when absent. -/
def getDownload (s : Store) (taskId : Nat) : Option DownloadStatus :=
  (s.find? (fun p => p.1 = taskId)).map (fun p => p.2)

/-- `DbState::update_download_status(task_id, status, _)`: single atomic status
update against the store; updating an absent id touches no row (as the SQL
UPDATE matches zero rows). -/
def updateDownloadStatus (s : Store) (taskId : Nat) (st : DownloadStatus) : Store :=
  s.map (fun p => if p.1 = taskId then (p.1, st) else p)

/-! ## Admission gate

Modelled from the spec: the `DownloadManager` counting gate lives in
`src-tauri/src/ytdlp/download.rs`, which is absent from the provided sources;
§4.1 of the spec fixes its semantics exactly. -/

/-- Modelled from the spec: the admission gate's observable state — held slot
count and capacity (`DownloadManager` in the missing `download.rs`, spec §4.1). -/
structure Gate where
  held : Nat
  cap : Nat
  deriving DecidableEq, Repr

/-- Modelled from the spec: `try_acquire() -> bool` — non-blocking, succeeds iff
held count < capacity, incrementing the held count on success (spec §4.1). -/
def tryAcquire (g : Gate) : Bool × Gate :=
  if g.held < g.cap then (true, { g with held := g.held + 1 }) else (false, g)

/-- Modelled from the spec: `release()` — decrements the held count by one and
never below zero (defensive clamp, spec §4.1); `Nat` subtraction gives the clamp. -/
def release (g : Gate) : Gate :=
  { g with held := g.held - 1 }

/-! ## `retry_download` (commands.rs lines 38–77) -/

/-- The per-invocation event channel argument of `retry_download`
(`Channel<DownloadEvent>`), identified by an opaque handle. -/
abbrev Channel := Nat

/-- Everything observable about one `retry_download` invocation: the returned
result, the store and gate afterwards, the job id a supervision task was
spawned for (if any), and the events written to the `on_event` channel. -/
structure RetryResult where
  res : Except AppError Unit
  store : Store
  gate : Gate
  spawnedSupervisor : Option Nat
  channelSends : List String

/-- `retry_download(app, task_id, on_event)` from commands.rs lines 38–77:
binds `on_event` to `_` (line 43, never used), looks the task up
(`NotFound`-style error when absent), unconditionally resets the existing row
to `Pending`, then — if `try_acquire` succeeds — marks it `Downloading` and
spawns the supervision task; otherwise the row stays `Pending`. -/
def retry_download (store : Store) (gate : Gate) (taskId : Nat) (onEvent : Channel) :
    RetryResult :=
  let _ := onEvent
  match getDownload store taskId with
  | none =>
      { res := .error (.Custom "Download task not found")
        store := store, gate := gate, spawnedSupervisor := none, channelSends := [] }
  | some _ =>
      let store1 := updateDownloadStatus store taskId .Pending
      match tryAcquire gate with
      | (true, gate1) =>
          { res := .ok ()
            store := updateDownloadStatus store1 taskId .Downloading
            gate := gate1, spawnedSupervisor := some taskId, channelSends := [] }
      | (false, gate1) =>
          { res := .ok ()
            store := store1, gate := gate1, spawnedSupervisor := none, channelSends := [] }

/-! ## Panic-recovery boundary of the retried job's supervisor
(commands.rs lines 61–72) -/

/-- Observable effect of the recovery boundary around the spawned supervision
task in `retry_download`. -/
structure PanicGuardResult where
  store : Store
  gate : Gate
  admitNextInvoked : Bool
  deriving DecidableEq, Repr

/-- The recovery boundary of `retry_download`'s spawned task (commands.rs
lines 61–72): when the inner `tokio::spawn` of `execute_download_public`
terminates abnormally (`result` is `Err`), the handler logs the panic,
calls `manager.release()` and `process_next_pending_public(...)`.  No store
write appears on this path, so the store passes through unchanged. -/
def retryPanicGuard (store : Store) (gate : Gate) (taskId : Nat) : PanicGuardResult :=
  let _ := taskId
  { store := store, gate := release gate, admitNextInvoked := true }

/-! ## Next-admission and dynamic reconfiguration

Modelled from the spec: `process_next_pending` / `admit_next` and
`DownloadManager::set_max_concurrent` live in the missing `download.rs`;
§4.2 of the spec fixes their behaviour. -/

/-- Modelled from the spec: one sweep of `admit_next` — while the gate accepts
and a `Pending` job exists (oldest first), mark it `Downloading` in the store
and acquire the slot (spec §4.2).  `fuel` bounds the sweep; callers pass the
store length, an upper bound on the number of `Pending` rows. -/
def admitNextAux : Nat → Store → Gate → Store × Gate
  | 0, s, g => (s, g)
  | fuel + 1, s, g =>
      match s.find? (fun p => p.2 = DownloadStatus.Pending) with
      | none => (s, g)
      | some p =>
          match tryAcquire g with
          | (true, g1) => admitNextAux fuel (updateDownloadStatus s p.1 .Downloading) g1
          | (false, _) => (s, g)

/-- Modelled from the spec: `admit_next()` (`process_next_pending` in the
missing `download.rs`), spec §4.2. -/
def admitNext (s : Store) (g : Gate) : Store × Gate :=
  admitNextAux s.length s g

/-- Observable effect of one `set_max_concurrent` call. -/
structure SetMaxResult where
  res : Except AppError Unit
  store : Store
  gate : Gate
  admitNextCalled : Bool

/-- Modelled from the spec: `DownloadManager::set_max_concurrent(n)` (missing
`download.rs`, reached from `update_settings` in commands.rs lines 87–95):
validates n ≥ 1 — zero or negative is rejected with `ConfigError` before the
gate is mutated — then updates the gate's capacity without disturbing held
slots and calls `admit_next()` (spec §4.2, §7). -/
def set_max_concurrent (n : Int) (s : Store) (g : Gate) : SetMaxResult :=
  if n < 1 then
    { res := .error (.ConfigError "max_concurrent must be at least 1")
      store := s, gate := g, admitNextCalled := false }
  else
    let g1 : Gate := { g with cap := n.toNat }
    let (s2, g2) := admitNext s g1
    { res := .ok (), store := s2, gate := g2, admitNextCalled := true }

/-! ## Binary/dependency probing (binary.rs) -/

/-- Outcome of running an external probe command (`Command::output`), before
the timeout wrapper is applied: the spawn/IO can fail, or the process exits
with a success flag and captured stdout.  `stdoutUtf8` is `none` when the
captured bytes are not valid UTF-8 (`String::from_utf8` fails). -/
inductive CmdResult
  | spawnError
  | exited (success : Bool) (stdoutUtf8 : Option String)
  deriving DecidableEq, Repr

/-- A probe run: how many seconds the command took to complete, and its
outcome when it does complete. -/
structure ProbeRun where
  elapsedSecs : Nat
  result : CmdResult
  deriving DecidableEq, Repr

/-- The probe timeout used by binary.rs (`Duration::from_secs(5)`). -/
def probeTimeoutSecs : Nat := 5

/-- `try_get_version(binary_path)` (binary.rs lines 73–91): wraps
`Command::new(path).arg("--version").output()` in a 5-second
`tokio::time::timeout`; timeout elapse, spawn/IO error, non-zero exit and
invalid-UTF-8 stdout all yield `None`; a zero exit yields the trimmed stdout. -/
def try_get_version (run : ProbeRun) : Option String :=
  if probeTimeoutSecs < run.elapsedSecs then none
  else
    match run.result with
    | .spawnError => none
    | .exited true (some out) => some out.trim
    | .exited true none => none
    | .exited false _ => none

/-- Environment for `check_ytdlp`: whether the app-local binary file exists,
and the probe runs observed for the local binary and for the `yt-dlp` found on
the system PATH. -/
structure YtdlpEnv where
  localExists : Bool
  localProbe : ProbeRun
  systemProbe : ProbeRun
  deriving DecidableEq, Repr

/-- `check_ytdlp(app_data_dir)` (binary.rs lines 60–71): probes the app-local
binary first when the file exists, then falls back to the system PATH. -/
def check_ytdlp (env : YtdlpEnv) : Option String :=
  if env.localExists then
    match try_get_version env.localProbe with
    | some version => some version
    | none => try_get_version env.systemProbe
  else
    try_get_version env.systemProbe

/-- First line of a Rust `str::lines()` iterator: `none` on the empty string,
otherwise the text before the first newline with a trailing carriage return
stripped. -/
def rustFirstLine (s : String) : Option String :=
  if s.isEmpty then none
  else
    let line := (s.splitOn "\n").headD ""
    some (if line.endsWith "\x0d" then line.dropRight 1 else line)

/-- Environment for `check_ffmpeg`: whether the app-local ffmpeg file exists
and the probe run for it (there is no PATH fallback for ffmpeg). -/
structure FfmpegEnv where
  fileExists : Bool
  probe : ProbeRun
  deriving DecidableEq, Repr

/-- `check_ffmpeg(app_data_dir)` (binary.rs lines 94–118): `None` when the
app-local file is absent; otherwise runs `ffmpeg -version` under the same
5-second timeout and keeps the first stdout line on a zero exit. -/
def check_ffmpeg (env : FfmpegEnv) : Option String :=
  if !env.fileExists then none
  else if probeTimeoutSecs < env.probe.elapsedSecs then none
  else
    match env.probe.result with
    | .spawnError => none
    | .exited true (some out) => rustFirstLine out
    | .exited true none => none
    | .exited false _ => none

/-- `DependencyStatus` (ytdlp/types.rs), as filled in by `check_dependencies`. -/
structure DependencyStatus where
  ytdlpInstalled : Bool
  ytdlpVersion : Option String
  ffmpegInstalled : Bool
  ffmpegVersion : Option String
  deriving DecidableEq, Repr

/-- `check_dependencies(app_data_dir)` (binary.rs lines 121–131): runs both
probes and reports each dependency installed exactly when its probe produced a
version string. -/
def check_dependencies (ytdlpEnv : YtdlpEnv) (ffmpegEnv : FfmpegEnv) : DependencyStatus :=
  let ytdlpVersion := check_ytdlp ytdlpEnv
  let ffmpegVersion := check_ffmpeg ffmpegEnv
  { ytdlpInstalled := ytdlpVersion.isSome
    ytdlpVersion := ytdlpVersion
    ffmpegInstalled := ffmpegVersion.isSome
    ffmpegVersion := ffmpegVersion }

/-! ## Binary installation (binary.rs lines 134–233) -/

/-- Platform discriminator (`std::env::consts::OS` in binary.rs). -/
inductive OsKind
  | windows
  | macos
  | otherUnix
  deriving DecidableEq, Repr

/-- `InstallEvent` (ytdlp/types.rs) as emitted by binary.rs. -/
inductive InstallEvent
  | Progress (dependency message : String)
  | Error (dependency message : String)
  | Completed (dependency message : String)
  deriving DecidableEq, Repr

/-- Observed HTTP response in `download_ytdlp`: status success flag and text,
and the outcome of reading the body (`response.bytes()`), the body kept as an
opaque string. -/
structure HttpResponse where
  statusSuccess : Bool
  statusText : String
  bytesResult : Except String String
  deriving Repr

/-- Environment for `download_ytdlp`: outcomes of the fallible filesystem and
network steps.  `setPerms` merges the two Unix permission steps (read metadata,
set mode 0o755), carrying the already-formatted error message on failure. -/
structure InstallEnv where
  createDir : Except String Unit
  httpGet : Except String HttpResponse
  writeFile : Except String Unit
  setPerms : Except AppError Unit

/-- Everything observable about one installer call: the returned result, every
event-send attempted on the `on_event` channel paired with its delivery
outcome, and whether the binary file was written. -/
structure InstallOutcome where
  res : Except AppError Unit
  sends : List (InstallEvent × Bool)
  wroteBinary : Bool

/-- `download_ytdlp(app_data_dir, on_event)` (binary.rs lines 134–205): creates
the binaries directory, emits a `Progress` event (send result discarded via
`let _ =`), downloads the release binary, checks HTTP status (emitting an
`Error` event on failure, send result discarded), writes the file, sets Unix
permissions, and emits a `Completed` event (send result discarded).  The
macOS `xattr` step ignores its outcome entirely and is elided.  `deliver`
says whether each attempted channel send succeeds. -/
def download_ytdlp (env : InstallEnv) (deliver : InstallEvent → Bool) : InstallOutcome :=
  match env.createDir with
  | .error e =>
      { res := .error (.Custom ("Failed to create binaries directory: " ++ e))
        sends := [], wroteBinary := false }
  | .ok _ =>
      let ev1 := InstallEvent.Progress "yt-dlp" "Downloading yt-dlp..."
      let sends1 := [(ev1, deliver ev1)]
      match env.httpGet with
      | .error e =>
          { res := .error (.NetworkError ("Failed to download yt-dlp: " ++ e))
            sends := sends1, wroteBinary := false }
      | .ok resp =>
          if !resp.statusSuccess then
            let ev2 := InstallEvent.Error "yt-dlp" ("HTTP error: " ++ resp.statusText)
            { res := .error (.DownloadError
                ("Failed to download yt-dlp: HTTP " ++ resp.statusText))
              sends := sends1 ++ [(ev2, deliver ev2)], wroteBinary := false }
          else
            match resp.bytesResult with
            | .error e =>
                { res := .error (.DownloadError ("Failed to read response: " ++ e))
                  sends := sends1, wroteBinary := false }
            | .ok _ =>
                match env.writeFile with
                | .error e =>
                    { res := .error (.Custom ("Failed to write yt-dlp binary: " ++ e))
                      sends := sends1, wroteBinary := false }
                | .ok _ =>
                    match env.setPerms with
                    | .error e =>
                        { res := .error e, sends := sends1, wroteBinary := true }
                    | .ok _ =>
                        let ev3 := InstallEvent.Completed "yt-dlp"
                          "yt-dlp installed successfully"
                        { res := .ok ()
                          sends := sends1 ++ [(ev3, deliver ev3)]
                          wroteBinary := true }

/-- `download_ffmpeg(_app_data_dir, on_event)` (binary.rs lines 208–223):
emits a `Progress` and a `Completed` event, both send results discarded via
`let _ =`, and returns `Ok(())` unconditionally (the download itself is not
implemented). -/
def download_ffmpeg (deliver : InstallEvent → Bool) : InstallOutcome :=
  let ev1 := InstallEvent.Progress "ffmpeg" "ffmpeg download not yet implemented"
  let ev2 := InstallEvent.Completed "ffmpeg" "ffmpeg download skipped (not implemented)"
  { res := .ok ()
    sends := [(ev1, deliver ev1), (ev2, deliver ev2)]
    wroteBinary := false }

/-! ## Runtime binary resolution (binary.rs lines 8–47) -/

/-- `Path::join` on the string model of paths. -/
def pathJoin (dir file : String) : String := dir ++ "/" ++ file

/-- `get_binaries_dir(app_data_dir)` (binary.rs lines 11–13). -/
def get_binaries_dir (appDataDir : String) : String :=
  pathJoin appDataDir "binaries"

/-- `get_ytdlp_path(app_data_dir)` (binary.rs lines 17–23): the app-local
binary path, with the platform-specific extension. -/
def get_ytdlp_path (os : OsKind) (appDataDir : String) : String :=
  match os with
  | .windows => pathJoin (get_binaries_dir appDataDir) "yt-dlp.exe"
  | _ => pathJoin (get_binaries_dir appDataDir) "yt-dlp"

/-- `resolve_ytdlp_path(app_data_dir)` (binary.rs lines 27–47): backed by the
`RESOLVED_YTDLP: OnceCell<PathBuf>` static (line 8), modelled as explicit cell
state threaded through each call.  `get_or_try_init`: a filled cell is
returned as-is without consulting the environment; an empty cell runs the
initializer — app-local path if the file exists and answers the version probe,
else the system-PATH binary if it answers the probe, else `BinaryNotFound` —
and fills the cell only on `Ok` (the cell stays empty after an `Err`). -/
def resolve_ytdlp_path (cell : Option String) (os : OsKind) (appDataDir : String)
    (env : YtdlpEnv) : Except AppError String × Option String :=
  match cell with
  | some p => (.ok p, some p)
  | none =>
      let localPath := get_ytdlp_path os appDataDir
      if env.localExists && (try_get_version env.localProbe).isSome then
        (.ok localPath, some localPath)
      else if (try_get_version env.systemProbe).isSome then
        (.ok "yt-dlp", some "yt-dlp")
      else
        (.error (.BinaryNotFound
          "yt-dlp not found. Please install via Homebrew (brew install yt-dlp) or click Install."),
         none)

/-! ## Quit paths (tray.rs and commands.rs `set_minimize_to_tray`) -/

/-- Externally visible actions taken by the tray handlers and by
`set_minimize_to_tray`, in program order. -/
inductive AppAction
  | saveMinimizeSetting (value : Bool)
  | hideWindow
  | showWindow
  | cancelAll
  | exitApp (code : Nat)
  deriving DecidableEq, Repr

/-- `set_minimize_to_tray(app, minimize, remember)` (commands.rs lines
217–237): when `remember`, first persists the setting (propagating a store
failure with `?`, in which case nothing further runs); then either hides the
main window (`minimize`) or calls `manager.cancel_all()` followed by
`app.exit(0)`.  `saveOk` is the settings-store outcome; the returned list is
the trace of actions performed. -/
def set_minimize_to_tray (minimize remember saveOk : Bool) :
    Except AppError Unit × List AppAction :=
  if remember && !saveOk then
    (.error (.Custom "settings store error"), [])
  else
    let pre := if remember then [AppAction.saveMinimizeSetting minimize] else []
    if minimize then
      (.ok (), pre ++ [.hideWindow])
    else
      (.ok (), pre ++ [.cancelAll, .exitApp 0])

/-- The tray menu-event handler (tray.rs lines 24–38): `"show"` raises the
main window; `"quit"` calls `manager.cancel_all()` then `app.exit(0)`; any
other id does nothing. -/
def trayOnMenuEvent (eventId : String) : List AppAction :=
  if eventId = "show" then [.showWindow]
  else if eventId = "quit" then [.cancelAll, .exitApp 0]
  else []

/-- `true` iff the first `exitApp` in the trace (if any) is preceded by a
`cancelAll`. -/
def cancelAllPrecedesExit : List AppAction → Bool
  | [] => true
  | .cancelAll :: _ => true
  | .exitApp _ :: _ => false
  | _ :: rest => cancelAllPrecedesExit rest

/-! ## Helper lemmas -/

/-- Updating a job's status changes exactly that row's status as seen through
`getDownload`. -/
theorem getDownload_updateDownloadStatus_self (s : Store) (taskId : Nat)
    (st : DownloadStatus) :
    getDownload (updateDownloadStatus s taskId st) taskId =
      (getDownload s taskId).map (fun _ => st) := by
  induction s with
  | nil => rfl
  | cons p rest ih =>
    by_cases hp : p.1 = taskId
    · simp [getDownload, updateDownloadStatus, List.find?_cons, hp]
    · simp only [getDownload, updateDownloadStatus, List.map_cons] at ih ⊢
      rw [if_neg hp]
      simp only [List.find?_cons, decide_eq_false hp]
      exact ih

/-- Status updates never add, remove or re-key rows: the id column is
untouched. -/
theorem updateDownloadStatus_ids (s : Store) (taskId : Nat) (st : DownloadStatus) :
    (updateDownloadStatus s taskId st).map Prod.fst = s.map Prod.fst := by
  induction s with
  | nil => rfl
  | cons p rest ih =>
    by_cases hp : p.1 = taskId
    · simp [updateDownloadStatus, hp] at ih ⊢
      exact ih
    · simp [updateDownloadStatus, hp] at ih ⊢
      exact ih

/-- What `retry_download` does to any job id that exists in the store,
whatever its current status: `Ok` result, same id column (no duplicate row),
nothing on the channel, and the row ends `Downloading` with the slot taken and
a supervisor spawned when the gate has room, else `Pending` with the gate
untouched. -/
theorem retry_download_existing (store : Store) (gate : Gate) (taskId : Nat)
    (ch : Channel) (st : DownloadStatus) (h : getDownload store taskId = some st) :
    (retry_download store gate taskId ch).res = .ok () ∧
    (retry_download store gate taskId ch).store.map Prod.fst = store.map Prod.fst ∧
    (retry_download store gate taskId ch).channelSends = [] ∧
    (gate.held < gate.cap →
      getDownload (retry_download store gate taskId ch).store taskId = some .Downloading ∧
      (retry_download store gate taskId ch).gate = ⟨gate.held + 1, gate.cap⟩ ∧
      (retry_download store gate taskId ch).spawnedSupervisor = some taskId) ∧
    (¬ gate.held < gate.cap →
      getDownload (retry_download store gate taskId ch).store taskId = some .Pending ∧
      (retry_download store gate taskId ch).gate = gate ∧
      (retry_download store gate taskId ch).spawnedSupervisor = none) := by
  by_cases hc : gate.held < gate.cap
  · simp only [retry_download, h, tryAcquire, if_pos hc]
    simp [updateDownloadStatus_ids, getDownload_updateDownloadStatus_self, h, hc]
  · simp only [retry_download, h, tryAcquire, if_neg hc]
    simp [updateDownloadStatus_ids, getDownload_updateDownloadStatus_self, h, hc]

/-! ## Claim theorems -/

/-- C1: the recovery boundary around the supervision task spawned by
`retry_download` (commands.rs lines 61–72) does NOT update the job's status to
`Failed` on abnormal termination.  Evaluated at the failing input — job id 0
`Downloading`, gate holding its one slot — the boundary releases the slot and
invokes the next-admission attempt, but the job's row is still `Downloading`,
not `Failed`, contradicting part (a) of the claim. -/
theorem c1_retry_panic_guard_omits_failed_status :
    getDownload (retryPanicGuard [(0, DownloadStatus.Downloading)] ⟨1, 1⟩ 0).store 0 =
      some DownloadStatus.Downloading ∧
    getDownload (retryPanicGuard [(0, DownloadStatus.Downloading)] ⟨1, 1⟩ 0).store 0 ≠
      some DownloadStatus.Failed ∧
    (retryPanicGuard [(0, DownloadStatus.Downloading)] ⟨1, 1⟩ 0).gate = ⟨0, 1⟩ ∧
    (retryPanicGuard [(0, DownloadStatus.Downloading)] ⟨1, 1⟩ 0).admitNextInvoked = true ∧
    (∀ store gate taskId, (retryPanicGuard store gate taskId).store = store) := by
  exact ⟨rfl, by decide, rfl, rfl, fun _ _ _ => rfl⟩

/-- C2 counterexample: the claim "retry on a `Completed` job leaves its status
unchanged" is false at a concrete input — store holding job 0 as `Completed`
and a gate with a free slot: `retry_download` returns `Ok` but the row ends up
`Downloading` (it was first reset to `Pending`, then admitted). -/
theorem c2_counterexample_retry_completed_changes_status :
    (retry_download [(0, DownloadStatus.Completed)] ⟨0, 1⟩ 0 0).res = .ok () ∧
    getDownload (retry_download [(0, DownloadStatus.Completed)] ⟨0, 1⟩ 0 0).store 0 =
      some DownloadStatus.Downloading ∧
    ¬ getDownload (retry_download [(0, DownloadStatus.Completed)] ⟨0, 1⟩ 0 0).store 0 =
      some DownloadStatus.Completed := by
  exact ⟨rfl, rfl, by decide⟩

/-- C2 (amended): calling retry on a `Completed` or currently `Downloading`
job returns without error and does not create a duplicate row (the id column
is unchanged), but it is not a no-op on status: the same row is reset to
`Pending` and, when the gate has a free slot, immediately re-admitted to
`Downloading`. -/
theorem c2_retry_completed_or_downloading_resets
    (store : Store) (gate : Gate) (taskId : Nat) (ch : Channel)
    (h : getDownload store taskId = some DownloadStatus.Completed ∨
         getDownload store taskId = some DownloadStatus.Downloading) :
    (retry_download store gate taskId ch).res = .ok () ∧
    (retry_download store gate taskId ch).store.map Prod.fst = store.map Prod.fst ∧
    (gate.held < gate.cap →
      getDownload (retry_download store gate taskId ch).store taskId =
        some DownloadStatus.Downloading) ∧
    (¬ gate.held < gate.cap →
      getDownload (retry_download store gate taskId ch).store taskId =
        some DownloadStatus.Pending) := by
  rcases h with h | h
  · obtain ⟨h1, h2, _, h4, h5⟩ := retry_download_existing store gate taskId ch _ h
    exact ⟨h1, h2, fun hc => (h4 hc).1, fun hc => (h5 hc).1⟩
  · obtain ⟨h1, h2, _, h4, h5⟩ := retry_download_existing store gate taskId ch _ h
    exact ⟨h1, h2, fun hc => (h4 hc).1, fun hc => (h5 hc).1⟩

/-- C2 witness: the amended claim at a concrete input — job 0 `Completed`,
gate full — retry returns `Ok`, the id column is unchanged, and the row is
left `Pending`. -/
theorem c2_retry_completed_or_downloading_resets_witness :
    (retry_download [(0, DownloadStatus.Completed)] ⟨1, 1⟩ 0 0).res = .ok () ∧
    (retry_download [(0, DownloadStatus.Completed)] ⟨1, 1⟩ 0 0).store.map Prod.fst = [0] ∧
    getDownload (retry_download [(0, DownloadStatus.Completed)] ⟨1, 1⟩ 0 0).store 0 =
      some DownloadStatus.Pending := by
  obtain ⟨h1, h2, _, h4⟩ :=
    c2_retry_completed_or_downloading_resets [(0, DownloadStatus.Completed)] ⟨1, 1⟩ 0 0
      (Or.inl rfl)
  exact ⟨h1, h2, h4 (by decide)⟩

/-- C3: retrying a `Failed` job resets the same row to `Pending` (the id
column is unchanged, so no new id is minted); if the gate has a free slot the
same job id transitions to `Downloading` (with the slot acquired and a
supervisor spawned), otherwise the job remains `Pending` with the gate
untouched. -/
theorem c3_retry_failed_resets_and_readmits
    (store : Store) (gate : Gate) (taskId : Nat) (ch : Channel)
    (h : getDownload store taskId = some DownloadStatus.Failed) :
    (retry_download store gate taskId ch).res = .ok () ∧
    (retry_download store gate taskId ch).store.map Prod.fst = store.map Prod.fst ∧
    (gate.held < gate.cap →
      getDownload (retry_download store gate taskId ch).store taskId =
        some DownloadStatus.Downloading ∧
      (retry_download store gate taskId ch).gate = ⟨gate.held + 1, gate.cap⟩ ∧
      (retry_download store gate taskId ch).spawnedSupervisor = some taskId) ∧
    (¬ gate.held < gate.cap →
      getDownload (retry_download store gate taskId ch).store taskId =
        some DownloadStatus.Pending ∧
      (retry_download store gate taskId ch).gate = gate) := by
  obtain ⟨h1, h2, _, h4, h5⟩ := retry_download_existing store gate taskId ch _ h
  exact ⟨h1, h2, h4, fun hc => ⟨(h5 hc).1, (h5 hc).2.1⟩⟩

/-- C3 witness: job 0 `Failed`; with a free slot it becomes `Downloading` and
the slot count rises to 1; with a full gate (job 1's slot held, capacity 1) it
stays `Pending`. -/
theorem c3_retry_failed_resets_and_readmits_witness :
    getDownload (retry_download [(0, DownloadStatus.Failed)] ⟨0, 1⟩ 0 0).store 0 =
      some DownloadStatus.Downloading ∧
    (retry_download [(0, DownloadStatus.Failed)] ⟨0, 1⟩ 0 0).gate = ⟨1, 1⟩ ∧
    getDownload (retry_download [(0, DownloadStatus.Failed)] ⟨1, 1⟩ 0 0).store 0 =
      some DownloadStatus.Pending := by
  obtain ⟨_, _, h4, _⟩ :=
    c3_retry_failed_resets_and_readmits [(0, DownloadStatus.Failed)] ⟨0, 1⟩ 0 0 rfl
  obtain ⟨_, _, _, h5⟩ :=
    c3_retry_failed_resets_and_readmits [(0, DownloadStatus.Failed)] ⟨1, 1⟩ 0 0 rfl
  exact ⟨(h4 (by decide)).1, (h4 (by decide)).2.1, (h5 (by decide)).1⟩

/-- C4: retrying a job id absent from the store fails with the not-found error
(`AppError::Custom "Download task not found"`, the code's representation of
`NotFound`) and modifies nothing: the store and gate are returned unchanged,
no supervision task is spawned, and nothing is sent on the channel. -/
theorem c4_retry_unknown_id_fails_without_mutation
    (store : Store) (gate : Gate) (taskId : Nat) (ch : Channel)
    (h : getDownload store taskId = none) :
    retry_download store gate taskId ch =
      { res := .error (.Custom "Download task not found")
        store := store, gate := gate, spawnedSupervisor := none, channelSends := [] } := by
  simp [retry_download, h]

/-- C4 witness: the empty store at job id 7. -/
theorem c4_retry_unknown_id_fails_without_mutation_witness :
    getDownload ([] : Store) 7 = none ∧
    retry_download ([] : Store) ⟨0, 2⟩ 7 0 =
      { res := .error (.Custom "Download task not found")
        store := [], gate := ⟨0, 2⟩, spawnedSupervisor := none, channelSends := [] } :=
  ⟨rfl, c4_retry_unknown_id_fails_without_mutation [] ⟨0, 2⟩ 7 0 rfl⟩

/-- C6: `retry_download` never reads or writes its event-channel argument
(commands.rs line 43 binds it to `_`): two invocations on the same store,
gate and job id that differ only in the channel produce identical results and
state changes, and no event is ever sent on the channel. -/
theorem c6_retry_ignores_event_channel
    (store : Store) (gate : Gate) (taskId : Nat) (ch ch2 : Channel) :
    retry_download store gate taskId ch = retry_download store gate taskId ch2 ∧
    (retry_download store gate taskId ch).channelSends = [] := by
  refine ⟨rfl, ?_⟩
  unfold retry_download
  rcases h : getDownload store taskId with _ | st
  · rfl
  · rcases ht : tryAcquire gate with ⟨b, g1⟩
    cases b <;> simp [ht]

/-- `try_acquire` never changes the capacity, only the held count. -/
theorem tryAcquire_cap (g : Gate) : (tryAcquire g).2.cap = g.cap := by
  unfold tryAcquire
  split <;> rfl

/-- The admission sweep never changes the gate's capacity. -/
theorem admitNextAux_cap (fuel : Nat) (s : Store) (g : Gate) :
    (admitNextAux fuel s g).2.cap = g.cap := by
  induction fuel generalizing s g with
  | zero => rfl
  | succ n ih =>
    unfold admitNextAux
    rcases h : s.find? (fun p => p.2 = DownloadStatus.Pending) with _ | p
    · rw [h]
    · rw [h]
      rcases ht : tryAcquire g with ⟨b, g1⟩
      have hcap : g1.cap = g.cap := by
        have htc := tryAcquire_cap g
        rw [ht] at htc
        exact htc
      cases b
      · rfl
      · show (admitNextAux n (updateDownloadStatus s p.1 DownloadStatus.Downloading) g1).2.cap
            = g.cap
        rw [ih, hcap]

/-- C5: `set_max_concurrent n` rejects `n < 1` with `ConfigError`, returning
the store and gate untouched and never reaching `admit_next`; for valid `n` it
returns `Ok`, the gate's capacity becomes `n` (surviving the admission sweep),
and `admit_next` is invoked on the store with the reconfigured gate so freed
capacity is used immediately. -/
theorem c5_set_max_concurrent_validates_and_admits (n : Int) (s : Store) (g : Gate) :
    (n < 1 →
      (set_max_concurrent n s g).res =
        .error (.ConfigError "max_concurrent must be at least 1") ∧
      (set_max_concurrent n s g).gate = g ∧
      (set_max_concurrent n s g).store = s ∧
      (set_max_concurrent n s g).admitNextCalled = false) ∧
    (1 ≤ n →
      (set_max_concurrent n s g).res = .ok () ∧
      (set_max_concurrent n s g).gate.cap = n.toNat ∧
      (set_max_concurrent n s g).admitNextCalled = true ∧
      ((set_max_concurrent n s g).store, (set_max_concurrent n s g).gate) =
        admitNext s ⟨g.held, n.toNat⟩) := by
  constructor
  · intro hn
    simp [set_max_concurrent, hn]
  · intro hn
    have hn' : ¬ n < 1 := not_lt.mpr hn
    have hcap := admitNextAux_cap s.length s ⟨g.held, n.toNat⟩
    simp only [set_max_concurrent, if_neg hn', admitNext] at hcap ⊢
    rcases ha : admitNextAux s.length s ⟨g.held, n.toNat⟩ with ⟨s2, g2⟩
    rw [ha] at hcap
    exact ⟨trivial, hcap, trivial, trivial⟩

/-- C5 witness: `n = 0` is rejected with `ConfigError` without calling
`admit_next`; `n = 2` on a store with one `Pending` job and a zero-capacity
gate succeeds, sets the capacity to 2 and runs the admission sweep. -/
theorem c5_set_max_concurrent_validates_and_admits_witness :
    (set_max_concurrent 0 [] ⟨0, 1⟩).res =
      .error (.ConfigError "max_concurrent must be at least 1") ∧
    (set_max_concurrent 0 [] ⟨0, 1⟩).admitNextCalled = false ∧
    (set_max_concurrent 2 [(0, DownloadStatus.Pending)] ⟨0, 0⟩).res = .ok () ∧
    (set_max_concurrent 2 [(0, DownloadStatus.Pending)] ⟨0, 0⟩).gate.cap = (2 : Int).toNat ∧
    (set_max_concurrent 2 [(0, DownloadStatus.Pending)] ⟨0, 0⟩).admitNextCalled = true := by
  obtain ⟨ha, _⟩ := c5_set_max_concurrent_validates_and_admits 0 [] ⟨0, 1⟩
  obtain ⟨_, hb⟩ :=
    c5_set_max_concurrent_validates_and_admits 2 [(0, DownloadStatus.Pending)] ⟨0, 0⟩
  have h1 := ha (by norm_num)
  have h2 := hb (by norm_num)
  exact ⟨h1.1, h1.2.2.2, h2.1, h2.2.1, h2.2.2.1⟩

/-- C7: event delivery is fire-and-forget.  For any environment, two
`download_ytdlp` calls whose channels differ arbitrarily in delivery outcome
return the same result, write (or not) the binary identically, and attempt the
same event sequence; `download_ffmpeg` returns `Ok` whatever each send's
outcome; and on a fully successful install `download_ytdlp` returns `Ok`
regardless of the delivery function. -/
theorem c7_event_send_failure_never_alters_operation
    (env : InstallEnv) (d1 d2 : InstallEvent → Bool) :
    (download_ytdlp env d1).res = (download_ytdlp env d2).res ∧
    (download_ytdlp env d1).wroteBinary = (download_ytdlp env d2).wroteBinary ∧
    (download_ytdlp env d1).sends.map Prod.fst = (download_ytdlp env d2).sends.map Prod.fst ∧
    (download_ffmpeg d1).res = .ok () ∧
    (∀ statusText body,
      (download_ytdlp ⟨.ok (), .ok ⟨true, statusText, .ok body⟩, .ok (), .ok ()⟩ d1).res =
        .ok ()) := by
  refine ⟨?_, ?_, ?_, rfl, fun _ _ => rfl⟩ <;>
  · obtain ⟨cd, hg, wf, sp⟩ := env
    rcases cd with e1 | u1
    · rfl
    · rcases hg with e2 | ⟨ss, stxt, br⟩
      · rfl
      · cases ss
        · rfl
        · rcases br with e3 | body
          · rfl
          · rcases wf with e4 | u4
            · rfl
            · rcases sp with e5 | u5 <;> rfl

/-- C8: on both quit paths — the tray menu's `"quit"` item and
`set_minimize_to_tray` with `minimize = false` — `cancel_all` runs before the
`exit(0)` call, and no trace produced by either handler reaches an `exitApp`
action without a preceding `cancelAll`. -/
theorem c8_cancel_all_precedes_exit_on_quit_paths :
    (∀ minimize remember saveOk : Bool,
      cancelAllPrecedesExit (set_minimize_to_tray minimize remember saveOk).2 = true) ∧
    (∀ eventId : String, cancelAllPrecedesExit (trayOnMenuEvent eventId) = true) ∧
    trayOnMenuEvent "quit" = [AppAction.cancelAll, AppAction.exitApp 0] ∧
    (∀ remember : Bool,
      (set_minimize_to_tray false remember true).2 =
        (if remember then [AppAction.saveMinimizeSetting false] else []) ++
          [AppAction.cancelAll, AppAction.exitApp 0]) := by
  refine ⟨by decide, ?_, by decide, by decide⟩
  intro eventId
  unfold trayOnMenuEvent
  split
  · rfl
  · split <;> rfl

/-- C9: the probe timeout is 5 seconds; a probe that outlives it, fails to
spawn, or exits non-zero returns `none` rather than an error — for
`try_get_version` and for `check_ffmpeg`'s inline probe alike — and
`check_dependencies` reports each dependency installed exactly when its probe
produced a version string. -/
theorem c9_probes_timeout_and_report_installed_iff_version :
    probeTimeoutSecs = 5 ∧
    (∀ run : ProbeRun, probeTimeoutSecs < run.elapsedSecs → try_get_version run = none) ∧
    (∀ e : Nat, try_get_version ⟨e, .spawnError⟩ = none) ∧
    (∀ (e : Nat) (out : Option String), try_get_version ⟨e, .exited false out⟩ = none) ∧
    (∀ env : FfmpegEnv, probeTimeoutSecs < env.probe.elapsedSecs → check_ffmpeg env = none) ∧
    (∀ (ex : Bool) (e : Nat), check_ffmpeg ⟨ex, ⟨e, .spawnError⟩⟩ = none) ∧
    (∀ (ex : Bool) (e : Nat) (out : Option String),
      check_ffmpeg ⟨ex, ⟨e, .exited false out⟩⟩ = none) ∧
    (∀ (ye : YtdlpEnv) (fe : FfmpegEnv),
      (check_dependencies ye fe).ytdlpInstalled = (check_ytdlp ye).isSome ∧
      (check_dependencies ye fe).ffmpegInstalled = (check_ffmpeg fe).isSome ∧
      (check_dependencies ye fe).ytdlpVersion = check_ytdlp ye ∧
      (check_dependencies ye fe).ffmpegVersion = check_ffmpeg fe) := by
  refine ⟨rfl, ?_, fun e => ?_, fun e out => ?_, ?_, fun ex e => ?_, fun ex e out => ?_,
    fun ye fe => ⟨rfl, rfl, rfl, rfl⟩⟩
  · intro run h
    simp [try_get_version, h]
  · unfold try_get_version
    split
    · rfl
    · rfl
  · unfold try_get_version
    split
    · rfl
    · rcases out with _ | s <;> rfl
  · intro env h
    simp [check_ffmpeg, h]
  · cases ex
    · rfl
    · simp [check_ffmpeg]
  · cases ex
    · rfl
    · rcases out with _ | s <;> simp [check_ffmpeg]

/-- C9 witness: a zero-exit probe taking 6 s (past the 5-second timeout)
yields no version for `try_get_version` and, via `check_ffmpeg`, for an
existing ffmpeg binary taking 7 s. -/
theorem c9_probes_timeout_and_report_installed_iff_version_witness :
    probeTimeoutSecs < 6 ∧
    try_get_version ⟨6, .exited true (some "2025.06.09")⟩ = none ∧
    check_ffmpeg ⟨true, ⟨7, .exited true (some "ffmpeg version 6.0")⟩⟩ = none := by
  refine ⟨by decide, ?_, ?_⟩
  · exact c9_probes_timeout_and_report_installed_iff_version.2.1
      ⟨6, .exited true (some "2025.06.09")⟩ (by decide)
  · exact c9_probes_timeout_and_report_installed_iff_version.2.2.2.2.1
      ⟨true, ⟨7, .exited true (some "ffmpeg version 6.0")⟩⟩ (by decide)

/-- C10: `resolve_ytdlp_path` resolves once and is then idempotent.  On an
empty cell it returns the app-local binary path when that file exists and its
version probe answers, else the system-PATH binary when its probe answers,
else `BinaryNotFound` (leaving the cell empty so a later call re-tries); and
whenever a call has returned `Ok p`, every subsequent call returns the same
`Ok p` under any later environment. -/
theorem c10_resolve_ytdlp_path_resolve_once (os : OsKind) (dir : String)
    (env env2 : YtdlpEnv) (cell : Option String) (p : String) :
    ((env.localExists && (try_get_version env.localProbe).isSome) = true →
      resolve_ytdlp_path none os dir env =
        (.ok (get_ytdlp_path os dir), some (get_ytdlp_path os dir))) ∧
    ((env.localExists && (try_get_version env.localProbe).isSome) = false →
      (try_get_version env.systemProbe).isSome = true →
      resolve_ytdlp_path none os dir env = (.ok "yt-dlp", some "yt-dlp")) ∧
    ((env.localExists && (try_get_version env.localProbe).isSome) = false →
      (try_get_version env.systemProbe).isSome = false →
      resolve_ytdlp_path none os dir env =
        (.error (.BinaryNotFound
          "yt-dlp not found. Please install via Homebrew (brew install yt-dlp) or click Install."),
         none)) ∧
    ((resolve_ytdlp_path cell os dir env).1 = .ok p →
      (resolve_ytdlp_path (resolve_ytdlp_path cell os dir env).2 os dir env2).1 = .ok p) := by
  refine ⟨?_, ?_, ?_, ?_⟩
  · intro hL
    simp [resolve_ytdlp_path, hL]
  · intro hL hS
    simp [resolve_ytdlp_path, hL, hS]
  · intro hL hS
    simp [resolve_ytdlp_path, hL, hS]
  · intro h
    rcases cell with _ | q
    · by_cases hL : (env.localExists && (try_get_version env.localProbe).isSome) = true
      · simp only [resolve_ytdlp_path, hL, if_true] at h ⊢
        exact h
      · rw [Bool.not_eq_true] at hL
        by_cases hS : (try_get_version env.systemProbe).isSome = true
        · simp only [resolve_ytdlp_path, hL, hS, Bool.false_eq_true, if_false, if_true] at h ⊢
          exact h
        · rw [Bool.not_eq_true] at hS
          simp only [resolve_ytdlp_path, hL, hS, Bool.false_eq_true, if_false] at h
          exact Except.noConfusion h
    · simp only [resolve_ytdlp_path] at h ⊢
      exact h

/-- C10 witness: a first call that resolves to the app-local binary
(file present, probe answers in 1 s), then a second call with the filled cell
under an environment where every probe fails — it still returns the cached
path. -/
theorem c10_resolve_ytdlp_path_resolve_once_witness :
    resolve_ytdlp_path none .macos "APP"
        ⟨true, ⟨1, .exited true (some "2025.06.09")⟩, ⟨9, .spawnError⟩⟩ =
      (.ok (get_ytdlp_path .macos "APP"), some (get_ytdlp_path .macos "APP")) ∧
    (resolve_ytdlp_path (some "/opt/homebrew/bin/yt-dlp") .otherUnix "X"
        ⟨false, ⟨9, .spawnError⟩, ⟨9, .spawnError⟩⟩).1 = .ok "/opt/homebrew/bin/yt-dlp" := by
  constructor
  · exact (c10_resolve_ytdlp_path_resolve_once .macos "APP"
        ⟨true, ⟨1, .exited true (some "2025.06.09")⟩, ⟨9, .spawnError⟩⟩
        ⟨false, ⟨9, .spawnError⟩, ⟨9, .spawnError⟩⟩ none "x").1
      (by simp [try_get_version, probeTimeoutSecs])
  · exact (c10_resolve_ytdlp_path_resolve_once .otherUnix "X"
        ⟨false, ⟨9, .spawnError⟩, ⟨9, .spawnError⟩⟩
        ⟨false, ⟨9, .spawnError⟩, ⟨9, .spawnError⟩⟩
        (some "/opt/homebrew/bin/yt-dlp") "/opt/homebrew/bin/yt-dlp").2.2.2 rfl

end YummyYtDlp
